import Mathlib

/-!
# Verification of the flickora retrieval-and-ranking pipeline

Shallow embedding of the retrieval pipeline of the flickora backend:

* `services/global_chat_service.py` — query classification
  (`_classify_query_type`, `_is_follow_up_question`), the synchronous chat
  path (`chat`), the fallback generator (`_generate_fallback_response`)
  and the unused follow-up handler (`_handle_follow_up`);
* `services/optimized_rag_service.py` — `search_optimized`,
  `search_with_scores` and `_ensure_diversity` (the diversity selector);
* `services/rag_service.py` / `services/optimized_mongodb_rag_service.py` —
  the intent-specific section-weight matrix and the weighted score;
* `services/mongodb_service.py` — `cosine_similarity_search` including its
  error handling;
* `services/optimized_mongodb_rag_service.py` — the prefix-keyed embedding
  cache of `generate_embedding`.

Modelling conventions: Python floats become `ℚ`; the embedding model, the
database and the network are inputs (the similarity of each stored section
for the query at hand is a field of the candidate record, and fallible store
calls are `Except` values).  Python string operations are modelled on
`List Char` (`str.lower`, slicing, `in`), because the code only ever uses
them character-wise.
-/

namespace Flickora

/-! ## String helpers (Python `in`, `str.lower`, `str.strip`) -/

/-- Python `needle in haystack` on character lists: some contiguous
run of `haystack` equals `needle`. -/
def substrIn (needle : List Char) : List Char → Bool
  | [] => needle.isEmpty
  | c :: rest => needle.isPrefixOf (c :: rest) || substrIn needle rest

/-- Python `str.lower()`, character-wise. -/
def str_lower (s : String) : List Char := s.toList.map Char.toLower

/-- Python `any(kw in query_lower for kw in keywords)`. -/
def kwAny (query_lower : List Char) (keywords : List String) : Bool :=
  keywords.any (fun kw => substrIn kw.toList query_lower)

/-- Python `str.strip()`: drop whitespace from both ends. -/
def str_strip (s : String) : String :=
  String.mk (((s.toList.dropWhile Char.isWhitespace).reverse.dropWhile
    Char.isWhitespace).reverse)

/-! ## Query classification (`GlobalChatService`) -/

/-- `GlobalChatService._is_follow_up_question`: the referential
indicator substrings. -/
def follow_up_indicators : List String :=
  ["them", "those", "these", "they", "their",
   "what about", "tell me more", "why",
   "how about", "and", "also"]

/-- `GlobalChatService._classify_query_type`: recommendation keywords. -/
def recommendation_keywords : List String :=
  ["recommend", "suggestion", "should i watch", "similar to",
   "like", "what movie", "looking for", "want to watch",
   "good movies", "best movies", "top movies"]

/-- `GlobalChatService._classify_query_type`: comparison keywords. -/
def comparison_keywords : List String :=
  ["compare", "versus", "vs", "difference between",
   "better than", "similar", "both", "either"]

/-- `GlobalChatService._classify_query_type`: genre/theme keywords. -/
def genre_theme_keywords : List String :=
  ["genre", "theme", "about", "exploring", "dealing with",
   "drama", "comedy", "thriller", "action", "sci-fi",
   "love", "war", "family", "friendship", "redemption"]

/-- `GlobalChatService._is_follow_up_question(message)`. -/
def is_follow_up_question (message : String) : Bool :=
  kwAny (str_lower message) follow_up_indicators

/-- Python truthiness of the `conversation_history` argument
(`None` and the empty string are falsy). -/
def optionTruthy : Option String → Bool
  | none => false
  | some s => !s.isEmpty

/-- `GlobalChatService._classify_query_type(query, conversation_history)`:
a fixed if-chain, first matching rule wins. -/
def classify_query_type (query : String) (conversation_history : Option String) :
    String :=
  if optionTruthy conversation_history && is_follow_up_question query then
    "follow_up"
  else if kwAny (str_lower query) recommendation_keywords then
    "recommendation"
  else if kwAny (str_lower query) comparison_keywords then
    "comparison"
  else if kwAny (str_lower query) genre_theme_keywords then
    "genre_theme"
  else
    "general"

/-! ## Sentence limiting (`chat`, after the LLM call)

`re.split(r'(?<=[.!?])\s+', answer)` splits at every maximal whitespace run
that directly follows `.`, `!` or `?`. -/

/-- Is the character a sentence terminator of the splitting regex? -/
def isSentenceEnd (c : Char) : Bool := c == '.' || c == '!' || c == '?'

mutual

/-- Accumulate the current piece (`acc` reversed); a whitespace character
whose predecessor was a sentence terminator closes the piece. -/
def splitSentencesGo : List Char → List Char → List (List Char)
  | [], acc => [acc.reverse]
  | c :: rest, acc =>
    if c.isWhitespace && (match acc with
        | p :: _ => isSentenceEnd p
        | [] => false) then
      acc.reverse :: splitSentencesSkip rest
    else
      splitSentencesGo rest (c :: acc)

/-- Consume the remainder of the whitespace run after a split point. -/
def splitSentencesSkip : List Char → List (List Char)
  | [] => [[]]
  | c :: rest =>
    if c.isWhitespace then splitSentencesSkip rest
    else splitSentencesGo rest [c]

end

/-- `re.split(r'(?<=[.!?])\s+', s)`. -/
def split_sentences (s : String) : List String :=
  (splitSentencesGo s.toList []).map String.mk

/-- The response-length limiter of `GlobalChatService.chat`:
`if len(sentences) > 8: answer = '. '.join(sentences[:8]) + '.'`. -/
def limit_sentences (answer : String) : String :=
  let sentences := split_sentences answer
  if sentences.length > 8 then
    String.intercalate ". " (sentences.take 8) ++ "."
  else answer

/-! ## Candidate records and the pgvector search path
(`OptimizedRAGService`)

A `PGSection` is a `MovieSection` row as the query sees it: its cosine
similarity to the query embedding (the `similarity` annotation
`1.0 - CosineDistance(embedding, query_embedding)`) is carried as data. -/

structure PGSection where
  movie_id : Nat
  movie_title : String
  section_type : String
  content : String
  similarity : ℚ
deriving DecidableEq

/-- The result-record shape of `search_with_scores` (the fields the chat
path reads). -/
structure ScoredResult where
  movie_id : Nat
  movie_title : String
  section_type : String
  similarity : ℚ
deriving DecidableEq

/-- The `min_similarity=0.30` threshold that `GlobalChatService.chat`
passes to `search_with_scores` (written as an explicit numerator/denominator
so that concrete runs reduce in the kernel). -/
def q30 : ℚ := ⟨3, 10, by norm_num, by norm_num⟩

/-- Insert while keeping strictly-larger keys in front (stable). -/
def insertByDesc {α : Type} (key : α → ℚ) (x : α) : List α → List α
  | [] => [x]
  | y :: rest =>
    if key y ≤ key x then x :: y :: rest else y :: insertByDesc key x rest

/-- Stable sort by a rational key, descending.  Models both
`order_by('distance')` (ascending distance = descending similarity) and
Python `sort(key=..., reverse=True)`. -/
def sortByDesc {α : Type} (key : α → ℚ) : List α → List α
  | [] => []
  | x :: rest => insertByDesc key x (sortByDesc key rest)

/-- `OptimizedRAGService._ensure_diversity`, inner loop.  `counts` is the
`movie_counts` dict (`.get(movie_id, 0)`), `len` the current length of
`diverse_results`; the `len(diverse_results) >= k` break is checked on
every iteration, after a possible append. -/
def ensure_diversity_go (k max_per_movie : Nat) :
    List PGSection → (Nat → Nat) → Nat → List PGSection
  | [], _, _ => []
  | s :: rest, counts, len =>
    if counts s.movie_id < max_per_movie then
      if len + 1 ≥ k then [s]
      else s :: ensure_diversity_go k max_per_movie rest
        (fun m => if m = s.movie_id then counts m + 1 else counts m) (len + 1)
    else
      if len ≥ k then []
      else ensure_diversity_go k max_per_movie rest counts len

/-- `OptimizedRAGService._ensure_diversity(results, k, max_per_movie)`.
The same loop is inlined in `OptimizedMongoDBRAGService.search_optimized`
and in `RAGService.search_for_recommendations`. -/
def ensure_diversity (results : List PGSection) (k max_per_movie : Nat) :
    List PGSection :=
  ensure_diversity_go k max_per_movie results (fun _ => 0) 0

/-- The candidates a full greedy pass admits under the per-movie cap,
ignoring `k` (the diversity-admissible subsequence of the input). -/
def diversity_admissible (max_per_movie : Nat) :
    List PGSection → (Nat → Nat) → List PGSection
  | [], _ => []
  | s :: rest, counts =>
    if counts s.movie_id < max_per_movie then
      s :: diversity_admissible max_per_movie rest
        (fun m => if m = s.movie_id then counts m + 1 else counts m)
    else diversity_admissible max_per_movie rest counts

/-- `OptimizedRAGService.search_optimized`, line
`initial_k = k * 2 if use_reranking and self.use_reranking else k`:
the number of raw candidates requested from the store. -/
def search_optimized_initial_k (k : Nat)
    (use_reranking singleton_use_reranking : Bool) : Nat :=
  if use_reranking && singleton_use_reranking then k * 2 else k

/-- `OptimizedRAGService.search_optimized` with re-ranking disabled (the
deployed default: neither `search_with_scores` nor `GlobalChatService.chat`
ever passes `use_reranking=True`).  The queryset filters by movie, filters
by the similarity threshold, orders by distance and slices `[:initial_k]`
with `initial_k = k`; then `_ensure_diversity(results, k, max_per_movie=2)`. -/
def search_optimized (candidates : List PGSection) (k : Nat)
    (min_similarity : ℚ) (movie_id : Option Nat) : List PGSection :=
  let qs : List PGSection := match movie_id with
    | some m => candidates.filter (fun s => s.movie_id == m)
    | none => candidates
  let qs := qs.filter (fun s => min_similarity ≤ s.similarity)
  let initial_k := search_optimized_initial_k k false false
  let results := (sortByDesc PGSection.similarity qs).take initial_k
  ensure_diversity results k 2

/-- `OptimizedRAGService.search_with_scores`: delegate and reshape. -/
def search_with_scores (candidates : List PGSection) (k : Nat)
    (min_similarity : ℚ) (movie_id : Option Nat) : List ScoredResult :=
  (search_optimized candidates k min_similarity movie_id).map (fun s =>
    { movie_id := s.movie_id
      movie_title := s.movie_title
      section_type := s.section_type
      similarity := s.similarity })

/-! ## Raw-candidate request sizes (over-retrieval, claim C2) -/

/-- `RAGService.search_with_priority`: `cosine_similarity_search(..., k=k*3, ...)`. -/
def search_with_priority_candidate_request (k : Nat) : Nat := k * 3

/-- `OptimizedMongoDBRAGService.search_optimized`:
`MovieSectionMongoDB.vector_search(..., k=initial_k * 2, ...)`. -/
def mongo_search_optimized_request (k : Nat)
    (use_reranking singleton_use_reranking : Bool) : Nat :=
  search_optimized_initial_k k use_reranking singleton_use_reranking * 2

/-! ## The relevance-weighting matrix

`section_weights` of `RAGService.search_with_priority` and (identically) of
`OptimizedMongoDBRAGService.search_optimized`.  Rows are query types,
columns are section types.  Both services then compute
`weighted_score = similarity * weights.get(section_type, 1.0)` (in
`rag_service.py` written as `(1.0 - distance) * weight` with
`distance = 1 - similarity`). -/

def plot_weights : List (String × ℚ) :=
  [("plot_structure", 3.5), ("characters", 2.0), ("themes", 1.5),
   ("production", 1.0), ("cast_crew", 0.8), ("visual_technical", 0.5),
   ("reception", 0.5), ("legacy", 0.5)]

def technical_weights : List (String × ℚ) :=
  [("visual_technical", 3.5), ("production", 2.0), ("cast_crew", 1.5),
   ("themes", 1.0), ("plot_structure", 0.8), ("characters", 0.5),
   ("reception", 0.5), ("legacy", 0.5)]

def analysis_weights : List (String × ℚ) :=
  [("themes", 3.5), ("characters", 2.5), ("visual_technical", 2.0),
   ("plot_structure", 1.5), ("cast_crew", 1.0), ("production", 0.8),
   ("reception", 0.8), ("legacy", 1.0)]

def facts_weights : List (String × ℚ) :=
  [("production", 3.5), ("cast_crew", 2.5), ("reception", 2.0),
   ("legacy", 1.5), ("plot_structure", 1.0), ("characters", 0.8),
   ("visual_technical", 0.8), ("themes", 0.5)]

def general_weights : List (String × ℚ) :=
  [("plot_structure", 2.2), ("themes", 1.8), ("characters", 1.6),
   ("visual_technical", 1.4), ("production", 1.2), ("cast_crew", 1.2),
   ("reception", 1.0), ("legacy", 1.0)]

def section_weights : List (String × List (String × ℚ)) :=
  [("plot", plot_weights), ("technical", technical_weights),
   ("analysis", analysis_weights), ("facts", facts_weights),
   ("general", general_weights)]

/-- `weights = section_weights.get(query_type, section_weights['general'])`. -/
def weights_for (query_type : String) : List (String × ℚ) :=
  (section_weights.lookup query_type).getD general_weights

/-- `weight = weights.get(section.section_type, 1.0)`. -/
def weight_for (query_type section_type : String) : ℚ :=
  ((weights_for query_type).lookup section_type).getD 1

/-- `section.weighted_score = similarity * weight`. -/
def weighted_score (similarity : ℚ) (query_type section_type : String) : ℚ :=
  similarity * weight_for query_type section_type

/-! ## The synchronous chat path (`GlobalChatService.chat`)

The LLM call is external: `llm_answer = some a` models a successful
`chat.completions.create` whose first choice has content `a`;
`llm_answer = none` models an API exception or an empty response (both end
in the inner `except` branch).  The conversation context, the referenced
movies and the `system_prompt_sent` flag are fetched as in `chat`;
`referenced_movies` is fetched and then never used for retrieval, and the
search always runs with `k=10`, `min_similarity=0.30`, `movie_id=None`.
`np.mean` of an empty list is `nan` in Python, not an exception, so the
zero-candidate run reaches the LLM call; the metrics dict is not modelled. -/

structure ChatResponse where
  message : String
  sources : List ScoredResult
  query_type : String
  referenced_movies : List String
  is_first_message : Bool
deriving DecidableEq

/-- `GlobalChatService._generate_fallback_response(query_type, results)`.
`list(set(...))` deduplicates the first three titles in an order Python
leaves unspecified; `List.dedup` is one such order. -/
def generate_fallback_response (_query_type : String)
    (results : List ScoredResult) : String :=
  if results.isEmpty then
    "I couldn\x27t find relevant information in our movie database. Please try rephrasing your question."
  else
    let movies := ((results.take 3).map (fun r => r.movie_title)).dedup
    "Based on our database, you might be interested in: " ++
      String.intercalate ", " movies ++
      ". Please ask a more specific question for detailed insights."

/-- `GlobalChatService.chat(user_message, conversation_id)`, synchronous
path.  `candidates` is the embedded store for this query (every section
with its cosine similarity to the query embedding). -/
def chat_sync (user_message : String) (conversation_context : Option String)
    (candidates : List PGSection) (llm_answer : Option String)
    (system_prompt_sent : Bool) : ChatResponse :=
  let query_type := classify_query_type user_message conversation_context
  let results := search_with_scores candidates 10 q30 none
  let current_movies := ((results.take 8).map (fun r => r.movie_title)).dedup
  let answer := match llm_answer with
    | some a => str_strip a
    | none => generate_fallback_response query_type (results.take 3)
  let answer := limit_sentences answer
  { message := answer
    sources := results.take 8
    query_type := query_type
    referenced_movies := current_movies
    is_first_message := !system_prompt_sent }

/-! ## MongoDB cosine search (`MongoDBVectorService.cosine_similarity_search`)
and the unused follow-up handler (`GlobalChatService._handle_follow_up`)

An `EmbDoc` is a stored embedding document; `sim` abstracts the per-document
cosine `np.dot(q, e) / (|q| * |e|)` computed from the stored vector.  The
whole `find`-and-score body runs under `try`; `except Exception` logs and
returns `[]`, which `find_result = Except.error msg` models. -/

structure EmbDoc where
  section_id : Nat
  movie_id : Nat
  section_type : String
deriving DecidableEq

/-- A document with its `similarity` and `distance = 1 - similarity`
fields set, as appended to `results`. -/
structure SimDoc where
  doc : EmbDoc
  similarity : ℚ
  distance : ℚ
deriving DecidableEq

/-- `MongoDBVectorService.cosine_similarity_search(query_embedding, k,
movie_id, section_types, min_similarity)`. -/
def cosine_similarity_search (find_result : Except String (List EmbDoc))
    (sim : EmbDoc → ℚ) (k : Nat) (movie_id : Option Nat)
    (section_types : Option (List String)) (min_similarity : ℚ) :
    List SimDoc :=
  match find_result with
  | .error _ => []
  | .ok documents =>
    let documents : List EmbDoc := match movie_id with
      | some m => documents.filter (fun d => d.movie_id == m)
      | none => documents
    let documents : List EmbDoc := match section_types with
      | some ts => documents.filter (fun d => ts.contains d.section_type)
      | none => documents
    let results := (documents.filter (fun d => min_similarity ≤ sim d)).map
      (fun d => SimDoc.mk d (sim d) (1 - sim d))
    (sortByDesc SimDoc.similarity results).take k

/-- `GlobalChatService._handle_follow_up(query, referenced_movies)`.
`movie_ids` is what `Movie.objects.filter(title__in=referenced_movies)`
resolved; `section_exists` is membership in the PostgreSQL section table;
`fallback` is the unrestricted `search_with_scores(query, k=8)` result of
the `else` branch.  (This method is defined but never called by `chat`.) -/
def handle_follow_up (movie_ids : List Nat)
    (find_result : Except String (List EmbDoc)) (sim : EmbDoc → ℚ)
    (section_exists : Nat → Bool) (fallback : List SimDoc) : List SimDoc :=
  if movie_ids.isEmpty then fallback
  else
    let mongo_results := cosine_similarity_search find_result sim 10 none none 0
    let mongo_results :=
      mongo_results.filter (fun d => movie_ids.contains d.doc.movie_id)
    mongo_results.filter (fun d => section_exists d.doc.section_id)

/-! ## The prefix-keyed embedding cache
(`OptimizedMongoDBRAGService.generate_embedding`)

`cache_key = hash(text[:500])` — the key depends only on the first 500
characters; the hash is modelled as the prefix itself (equal prefixes give
equal keys, which is the structure the cache relies on).  The dict is an
insertion-ordered association list; `pop(next(iter(...)))` removes the
first-inserted entry. -/

def embedding_cache_key (text : String) : List Char := text.toList.take 500

def generate_embedding_cached {Vec : Type} (encode : String → Vec)
    (cache : List (List Char × Vec)) (text : String) :
    Vec × List (List Char × Vec) :=
  let key := embedding_cache_key text
  match cache.lookup key with
  | some v => (v, cache)
  | none =>
    let result := encode text
    let cache1 := if cache.length > 100 then cache.tail else cache
    (result, cache1 ++ [(key, result)])

/-! ## Concrete inputs used by witnesses and counterexamples -/

/-- Three sections of movie 1 and one of movie 2, sorted input for the
diversity selector. -/
def demo_diversity_input : List PGSection :=
  [⟨1, "Inception", "themes", "dreams", 1⟩,
   ⟨1, "Inception", "plot_structure", "heist", 1⟩,
   ⟨1, "Inception", "characters", "Cobb", 1⟩,
   ⟨2, "Interstellar", "themes", "space", 1⟩]

/-- A store whose only above-threshold section belongs to movie 3. -/
def demo_store : List PGSection :=
  [⟨3, "Dunkirk", "themes", "war film analysis", 1⟩]

/-- Embedding documents of movies 7 and 1, input for the follow-up
handler. -/
def demo_follow_docs : List EmbDoc :=
  [⟨11, 7, "themes"⟩, ⟨12, 1, "plot_structure"⟩]

/-- Two distinct 501-character texts sharing their first 500 characters. -/
def cache_text_one : String := String.mk (List.replicate 500 'a' ++ ['x'])

def cache_text_two : String := String.mk (List.replicate 500 'a' ++ ['y'])

/-- A concrete embedding function that distinguishes the two texts. -/
def cache_demo_encode : String → List ℚ :=
  fun s => if s.toList.contains 'x' then [1] else [0]

/-! # Theorems -/

/-! ### Helper lemmas for the diversity selector -/

theorem diversity_admissible_sublist (max_per_movie : Nat) :
    ∀ (l : List PGSection) (counts : Nat → Nat),
      (diversity_admissible max_per_movie l counts).Sublist l := by
  intro l
  induction l with
  | nil => intro counts; simp [diversity_admissible]
  | cons s rest ih =>
    intro counts
    simp only [diversity_admissible]
    by_cases h : counts s.movie_id < max_per_movie
    · simp only [if_pos h]
      exact List.Sublist.cons₂ s (ih _)
    · simp only [if_neg h]
      exact List.Sublist.cons s (ih _)

theorem diversity_admissible_countP (max_per_movie mid : Nat) :
    ∀ (l : List PGSection) (counts : Nat → Nat),
      (diversity_admissible max_per_movie l counts).countP
        (fun s => s.movie_id == mid) ≤ max_per_movie - counts mid := by
  intro l
  induction l with
  | nil => intro counts; simp [diversity_admissible]
  | cons s rest ih =>
    intro counts
    simp only [diversity_admissible]
    by_cases h : counts s.movie_id < max_per_movie
    · by_cases hm : s.movie_id = mid
      · subst hm
        have h2 : (diversity_admissible max_per_movie rest
              (fun m => if m = s.movie_id then counts m + 1 else counts m)).countP
              (fun t => t.movie_id == s.movie_id) ≤
            max_per_movie - (counts s.movie_id + 1) := by
          simpa using
            ih (fun m => if m = s.movie_id then counts m + 1 else counts m)
        simp only [if_pos h, List.countP_cons]
        simp
        omega
      · have hne : mid ≠ s.movie_id := fun hh => hm hh.symm
        have h2 : (diversity_admissible max_per_movie rest
              (fun m => if m = s.movie_id then counts m + 1 else counts m)).countP
              (fun t => t.movie_id == mid) ≤
            max_per_movie - counts mid := by
          simpa [hne] using
            ih (fun m => if m = s.movie_id then counts m + 1 else counts m)
        simp only [if_pos h, List.countP_cons]
        simp [hm]
        omega
    · simp only [if_neg h]
      exact ih counts

theorem ensure_diversity_go_eq_take (k max_per_movie : Nat) :
    ∀ (l : List PGSection) (counts : Nat → Nat) (len : Nat), len < k →
      ensure_diversity_go k max_per_movie l counts len =
        (diversity_admissible max_per_movie l counts).take (k - len) := by
  intro l
  induction l with
  | nil =>
    intro counts len h
    simp [ensure_diversity_go, diversity_admissible]
  | cons s rest ih =>
    intro counts len hlen
    simp only [ensure_diversity_go, diversity_admissible]
    by_cases h : counts s.movie_id < max_per_movie
    · simp only [if_pos h]
      have hk : k - len = (k - (len + 1)) + 1 := by omega
      rw [hk, List.take_succ_cons]
      by_cases hbreak : len + 1 ≥ k
      · simp only [if_pos hbreak]
        have h0 : k - (len + 1) = 0 := by omega
        rw [h0, List.take_zero]
      · simp only [if_neg hbreak]
        rw [ih _ (len + 1) (by omega)]
    · simp only [if_neg h]
      have hnb : ¬ len ≥ k := by omega
      simp only [if_neg hnb]
      exact ih counts len hlen

theorem ensure_diversity_eq_take (results : List PGSection)
    (k max_per_movie : Nat) (hk : 1 ≤ k) :
    ensure_diversity results k max_per_movie =
      (diversity_admissible max_per_movie results (fun _ => 0)).take k := by
  unfold ensure_diversity
  rw [ensure_diversity_go_eq_take k max_per_movie results _ 0 (by omega),
    Nat.sub_zero]

/-! ### C1 — the diversity selector -/

/-- C1: for every candidate list and every `k ≥ 1`, `_ensure_diversity`
returns at most `max_per_movie` results sharing a movie id, returns a
subsequence of the input order, and when the diversity constraint leaves
fewer than `k` admissible candidates (the full greedy pass admits fewer
than `k`) it returns exactly those, hence fewer than `k` results — it never
pads with candidates from over-represented movies. -/
theorem diversity_selector_spec (results : List PGSection)
    (k max_per_movie : Nat) (hk : 1 ≤ k) :
    (∀ mid, (ensure_diversity results k max_per_movie).countP
        (fun s => s.movie_id == mid) ≤ max_per_movie) ∧
    (ensure_diversity results k max_per_movie).Sublist results ∧
    ((diversity_admissible max_per_movie results (fun _ => 0)).length < k →
      (ensure_diversity results k max_per_movie).length < k ∧
      ensure_diversity results k max_per_movie =
        diversity_admissible max_per_movie results (fun _ => 0)) := by
  have hchar := ensure_diversity_eq_take results k max_per_movie hk
  refine ⟨?_, ?_, ?_⟩
  · intro mid
    rw [hchar]
    have h1 : ((diversity_admissible max_per_movie results (fun _ => 0)).take
          k).countP (fun s => s.movie_id == mid) ≤
        (diversity_admissible max_per_movie results (fun _ => 0)).countP
          (fun s => s.movie_id == mid) :=
      List.Sublist.countP_le _ (List.take_sublist _ _)
    have h2 := diversity_admissible_countP max_per_movie mid results (fun _ => 0)
    omega
  · rw [hchar]
    exact (List.take_sublist _ _).trans
      (diversity_admissible_sublist max_per_movie results _)
  · intro hlt
    have heq : (diversity_admissible max_per_movie results (fun _ => 0)).take k =
        diversity_admissible max_per_movie results (fun _ => 0) :=
      List.take_of_length_le (by omega)
    rw [hchar, heq]
    exact ⟨hlt, rfl⟩

/-- Witness for C1 at a concrete input: three sections of movie 1 followed
by one of movie 2, `k = 3`, cap 2. -/
theorem diversity_selector_spec_witness :
    (1 ≤ 3) ∧
    ((∀ mid, (ensure_diversity demo_diversity_input 3 2).countP
        (fun s => s.movie_id == mid) ≤ 2) ∧
    (ensure_diversity demo_diversity_input 3 2).Sublist demo_diversity_input ∧
    ((diversity_admissible 2 demo_diversity_input (fun _ => 0)).length < 3 →
      (ensure_diversity demo_diversity_input 3 2).length < 3 ∧
      ensure_diversity demo_diversity_input 3 2 =
        diversity_admissible 2 demo_diversity_input (fun _ => 0))) :=
  ⟨by decide, diversity_selector_spec demo_diversity_input 3 2 (by decide)⟩

/-! ### C2 — over-retrieval -/

/-- C2 counterexample: in `OptimizedRAGService.search_optimized` with
`k = 5` and re-ranking disabled (the deployed default — no caller ever
passes `use_reranking=True`), `initial_k` is 5, so only 5 raw candidates
are requested from the store, not the at-least-10 the claim requires. -/
theorem over_retrieval_counterexample :
    search_optimized_initial_k 5 false false = 5 ∧
    ¬ (5 * 2 ≤ search_optimized_initial_k 5 false false) := by decide

/-- C2 amended: `RAGService.search_with_priority` requests `3k ≥ 2k` raw
candidates and `OptimizedMongoDBRAGService.search_optimized` requests
`2·initial_k ≥ 2k`, but `OptimizedRAGService.search_optimized` — the
service `GlobalChatService` actually uses — requests only `k` raw
candidates whenever re-ranking is disabled (the default), with the
similarity threshold applied before the `[:initial_k]` slice. -/
theorem over_retrieval_amended (k : Nat) (ur srr : Bool) :
    2 * k ≤ search_with_priority_candidate_request k ∧
    2 * k ≤ mongo_search_optimized_request k ur srr ∧
    search_optimized_initial_k k false srr = k := by
  unfold search_with_priority_candidate_request mongo_search_optimized_request
    search_optimized_initial_k
  refine ⟨by omega, ?_, by simp⟩
  by_cases h : (ur && srr) = true <;> simp [h] <;> omega

/-! ### Helper lemmas for the weighting matrix -/

theorem mem_of_lookup_eq_some {α β : Type} [BEq α] [LawfulBEq α]
    {l : List (α × β)} {k : α} {v : β} (h : l.lookup k = some v) :
    (k, v) ∈ l := by
  induction l with
  | nil => simp [List.lookup] at h
  | cons p rest ih =>
    cases p with
    | mk pk pv =>
      simp only [List.lookup] at h
      by_cases hb : (k == pk) = true
      · rw [hb] at h
        simp only [Option.some.injEq] at h
        have hk : k = pk := eq_of_beq hb
        subst hk; subst h
        exact List.mem_cons_self _ _
      · rw [Bool.not_eq_true] at hb
        rw [hb] at h
        exact List.mem_cons_of_mem _ (ih h)

theorem section_weights_entries_nonneg :
    ∀ row ∈ section_weights, ∀ p ∈ row.2, 0 ≤ p.2 := by
  intro row hrow
  fin_cases hrow <;>
    · intro p hp
      fin_cases hp <;> norm_num

theorem general_weights_entries_nonneg : ∀ p ∈ general_weights, 0 ≤ p.2 := by
  intro p hp
  fin_cases hp <;> norm_num

theorem weights_row_nonneg (query_type : String) :
    ∀ p ∈ weights_for query_type, 0 ≤ p.2 := by
  intro p hp
  unfold weights_for at hp
  cases hq : section_weights.lookup query_type with
  | none =>
    rw [hq] at hp
    simp only [Option.getD_none] at hp
    exact general_weights_entries_nonneg p hp
  | some row =>
    rw [hq] at hp
    simp only [Option.getD_some] at hp
    exact section_weights_entries_nonneg _ (mem_of_lookup_eq_some hq) p hp

theorem weight_for_nonneg (query_type section_type : String) :
    0 ≤ weight_for query_type section_type := by
  unfold weight_for
  cases hw : (weights_for query_type).lookup section_type with
  | none => simp
  | some w =>
    simp only [Option.getD_some]
    exact weights_row_nonneg query_type _ (mem_of_lookup_eq_some hw)

/-! ### C7 — weighting is monotonic in raw similarity -/

/-- C7: for a fixed query intent and section kind, the weighted score is
monotone in the raw similarity — every multiplier in the matrix (and the
1.0 default) is nonnegative, so weighting never reorders same-kind
results. -/
theorem weighted_score_monotone (query_type section_type : String)
    (s1 s2 : ℚ) (h : s2 ≤ s1) :
    weighted_score s2 query_type section_type ≤
      weighted_score s1 query_type section_type := by
  unfold weighted_score
  exact mul_le_mul_of_nonneg_right h (weight_for_nonneg query_type section_type)

/-- Witness for C7 at concrete similarities 1/2 ≤ 9/10 for the
`general`/`themes` cell. -/
theorem weighted_score_monotone_witness :
    ((1:ℚ)/2 ≤ 9/10) ∧
    weighted_score (1/2) "general" "themes" ≤
      weighted_score (9/10) "general" "themes" :=
  ⟨by norm_num,
   weighted_score_monotone "general" "themes" (9/10) (1/2) (by norm_num)⟩

/-! ### C3 — the weighting matrix and the `themes` vs `legacy` comparison -/

/-- C3 counterexample: both `themes` and `legacy` weighted scores are 0
when the shared raw similarity is 0 (a value the pipeline admits:
`search_with_priority` filters with `min_similarity=0.0`), so the `themes`
candidate's weighted score is not strictly greater as the claim demands
for every equal raw similarity. -/
theorem weighting_strictness_counterexample :
    weighted_score 0 "general" "themes" = 0 ∧
    weighted_score 0 "general" "legacy" = 0 ∧
    ¬ (weighted_score 0 "general" "legacy" <
        weighted_score 0 "general" "themes") := by
  refine ⟨?_, ?_, ?_⟩ <;> simp [weighted_score]

/-- C3 amended: unmapped (intent, kind) pairs get multiplier exactly 1.0;
under the `general` intent `themes` weighs 1.8 and `legacy` 1.0, and for
two candidates with equal *positive* raw similarity the `themes` weighted
score is strictly greater (at raw similarity 0 the scores are equal). -/
theorem weighting_matrix_amended :
    (∀ query_type section_type,
      (weights_for query_type).lookup section_type = none →
      weight_for query_type section_type = 1) ∧
    weight_for "general" "themes" = 1.8 ∧
    weight_for "general" "legacy" = 1.0 ∧
    (∀ s : ℚ, 0 < s →
      weighted_score s "general" "legacy" <
        weighted_score s "general" "themes") := by
  refine ⟨?_, rfl, rfl, ?_⟩
  · intro query_type section_type hnone
    simp [weight_for, hnone]
  · intro s hs
    unfold weighted_score
    rw [show weight_for "general" "legacy" = 1.0 from rfl,
      show weight_for "general" "themes" = 1.8 from rfl]
    have h18 : (1.0:ℚ) < 1.8 := by norm_num
    exact mul_lt_mul_of_pos_left h18 hs

/-- Witness for C3 (amended) at the unmapped kind `box_office` and at the
concrete positive similarity 1/2. -/
theorem weighting_matrix_amended_witness :
    ((weights_for "general").lookup "box_office" = none ∧
      weight_for "general" "box_office" = 1) ∧
    ((0:ℚ) < 1/2 ∧
      weighted_score (1/2) "general" "legacy" <
        weighted_score (1/2) "general" "themes") :=
  ⟨⟨rfl, weighting_matrix_amended.1 "general" "box_office" rfl⟩,
   ⟨by norm_num, weighting_matrix_amended.2.2.2 (1/2) (by norm_num)⟩⟩

/-! ### C6 — classifier priority order -/

/-- C6: `_classify_query_type` evaluates its keyword rules in the fixed
order follow_up (only with truthy history and a referential indicator) >
recommendation > comparison > genre_theme > general, first match wins; a
query matching both recommendation and comparison keywords is classified
`recommendation`, and without history the result is never `follow_up`. -/
theorem classifier_priority_order (q : String) (ctx : Option String) :
    ((optionTruthy ctx && is_follow_up_question q) = true →
      classify_query_type q ctx = "follow_up") ∧
    ((optionTruthy ctx && is_follow_up_question q) = false →
      ((kwAny (str_lower q) recommendation_keywords = true →
          classify_query_type q ctx = "recommendation") ∧
       (kwAny (str_lower q) recommendation_keywords = false →
        ((kwAny (str_lower q) comparison_keywords = true →
            classify_query_type q ctx = "comparison") ∧
         (kwAny (str_lower q) comparison_keywords = false →
          ((kwAny (str_lower q) genre_theme_keywords = true →
              classify_query_type q ctx = "genre_theme") ∧
           (kwAny (str_lower q) genre_theme_keywords = false →
              classify_query_type q ctx = "general"))))))) ∧
    ((kwAny (str_lower q) recommendation_keywords = true ∧
        kwAny (str_lower q) comparison_keywords = true ∧
        (optionTruthy ctx && is_follow_up_question q) = false) →
      classify_query_type q ctx = "recommendation") ∧
    classify_query_type q none ≠ "follow_up" := by
  refine ⟨?_, ?_, ?_, ?_⟩
  · intro h
    simp [classify_query_type, h]
  · intro h
    refine ⟨fun hr => by simp [classify_query_type, h, hr], fun hr => ?_⟩
    refine ⟨fun hc => by simp [classify_query_type, h, hr, hc], fun hc => ?_⟩
    exact ⟨fun hg => by simp [classify_query_type, h, hr, hc, hg],
      fun hg => by simp [classify_query_type, h, hr, hc, hg]⟩
  · intro h
    simp [classify_query_type, h.1, h.2.2]
  · simp only [classify_query_type, optionTruthy, Bool.false_and,
      Bool.false_eq_true, if_false]
    split_ifs <;> decide

/-- Witness for C6: "What about them?" with non-empty history classifies
as `follow_up`. -/
theorem classifier_priority_order_witness :
    (optionTruthy (some "USER: hi") &&
      is_follow_up_question "What about them?") = true ∧
    classify_query_type "What about them?" (some "USER: hi") = "follow_up" :=
  ⟨by decide,
   (classifier_priority_order "What about them?" (some "USER: hi")).1
     (by decide)⟩

/-! ### C4 — follow-up queries do not restrict retrieval -/

/-- C4 counterexample: "What about them?" with a history that referenced
Inception (movie 1) and Interstellar (movie 2) classifies as `follow_up`,
yet the chat path returns a source from the unreferenced movie 3 — `chat`
always searches with `movie_id=None` and never calls `_handle_follow_up`,
so retrieval is not restricted to the referenced items. -/
theorem follow_up_restriction_counterexample :
    classify_query_type "What about them?"
      (some "USER: Tell me about Inception and Interstellar") = "follow_up" ∧
    (chat_sync "What about them?"
      (some "USER: Tell me about Inception and Interstellar") demo_store
      (some "answer") true).sources.map (fun r => r.movie_id) = [3] ∧
    (3:Nat) ∉ [1, 2] := by
  exact ⟨by decide, by decide, by decide⟩

/-- C4 amended: the classifier does label such queries `follow_up`, and
the (never invoked) `_handle_follow_up` would restrict results to the
resolved movie ids when any resolve; but the `chat` orchestration performs
the same unrestricted `k=10`, `movie_id=None` retrieval for every query
type, so results from unreferenced items can be returned. -/
theorem follow_up_handling_amended :
    (∀ q ctx, (optionTruthy ctx && is_follow_up_question q) = true →
      classify_query_type q ctx = "follow_up") ∧
    (∀ (movie_ids : List Nat) find_result sim section_exists fallback,
      movie_ids ≠ [] →
      ∀ d ∈ handle_follow_up movie_ids find_result sim section_exists fallback,
        d.doc.movie_id ∈ movie_ids) ∧
    (∀ msg ctx candidates llm sps,
      (chat_sync msg ctx candidates llm sps).sources =
        (search_with_scores candidates 10 q30 none).take 8) := by
  refine ⟨?_, ?_, ?_⟩
  · intro q ctx h
    simp [classify_query_type, h]
  · intro movie_ids find_result sim section_exists fallback hne d hd
    unfold handle_follow_up at hd
    rw [if_neg (by simpa using hne)] at hd
    have hd1 := List.mem_of_mem_filter hd
    have hd2 := List.of_mem_filter hd1
    simpa using hd2
  · intro msg ctx candidates llm sps
    rfl

/-- Witness for C4 (amended): with resolved ids `[1, 2]`, every result of
`_handle_follow_up` comes from movie 1 or 2. -/
theorem follow_up_handling_amended_witness :
    ([1, 2] ≠ ([] : List Nat)) ∧
    (∀ d ∈ handle_follow_up [1, 2] (Except.ok demo_follow_docs)
        (fun _ => 1) (fun _ => true) [], d.doc.movie_id ∈ [1, 2]) :=
  ⟨by decide,
   follow_up_handling_amended.2.1 [1, 2] (Except.ok demo_follow_docs)
     (fun _ => 1) (fun _ => true) [] (by decide)⟩

/-! ### C5 — zero candidates from the vector store -/

/-- C5 counterexample: with zero candidates and a *successful* LLM call,
`chat` returns the LLM's answer built on empty context, not the
"no relevant information" fallback — the fallback is reached only when the
LLM call also fails. -/
theorem zero_candidates_counterexample :
    (chat_sync "Any good sci-fi?" none []
      (some "There are many films in the catalog.") false).message =
      "There are many films in the catalog." ∧
    (chat_sync "Any good sci-fi?" none []
      (some "There are many films in the catalog.") false).message ≠
      "I couldn\x27t find relevant information in our movie database. Please try rephrasing your question." := by
  exact ⟨by decide, by decide⟩

/-- C5 amended: with zero candidates the synchronous chat path still
terminates with a well-formed response for every input (the whole body
runs under a top-level `try`/`except`, and `np.mean([])` is `nan`, not an
exception), but the "no relevant information" fallback message is returned
exactly when the LLM call also fails or returns empty; on LLM success the
post-processed LLM answer is returned instead. -/
theorem zero_candidates_amended (msg : String) (ctx : Option String)
    (llm : Option String) (sps : Bool) :
    (chat_sync msg ctx [] llm sps).message =
      match llm with
      | some a => limit_sentences (str_strip a)
      | none => "I couldn\x27t find relevant information in our movie database. Please try rephrasing your question." := by
  cases llm with
  | some a => rfl
  | none => rfl

/-! ### C9 — generation failure falls back to the template -/

/-- C9: when the LLM call fails or returns empty after candidates were
retrieved, the synchronous chat path returns the deterministic template
"Based on our database, you might be interested in: <titles>." built from
the (deduplicated) titles of the best three raw candidates, run through
the same sentence limiter as every answer — no exception reaches the
caller. -/
theorem generation_failure_fallback (msg : String) (ctx : Option String)
    (candidates : List PGSection) (sps : Bool)
    (hne : search_with_scores candidates 10 q30 none ≠ []) :
    (chat_sync msg ctx candidates none sps).message =
      limit_sentences
        ("Based on our database, you might be interested in: " ++
          String.intercalate ", "
            ((((search_with_scores candidates 10 q30 none).take 3).map
              (fun r => r.movie_title)).dedup) ++
          ". Please ask a more specific question for detailed insights.") := by
  have htake : (search_with_scores candidates 10 q30 none).take 3 ≠ [] := by
    simpa [List.take_eq_nil_iff] using hne
  have hmsg : (chat_sync msg ctx candidates none sps).message =
      limit_sentences (generate_fallback_response
        (classify_query_type msg ctx)
        ((search_with_scores candidates 10 q30 none).take 3)) := rfl
  rw [hmsg]
  unfold generate_fallback_response
  rw [if_neg (by simpa [List.isEmpty_iff] using htake)]
  simp [List.take_take]

/-- Witness for C9 at the one-candidate store: the fallback names
Dunkirk. -/
theorem generation_failure_fallback_witness :
    (search_with_scores demo_store 10 q30 none ≠ []) ∧
    (chat_sync "What should I watch?" none demo_store none false).message =
      limit_sentences
        ("Based on our database, you might be interested in: " ++
          String.intercalate ", "
            ((((search_with_scores demo_store 10 q30 none).take 3).map
              (fun r => r.movie_title)).dedup) ++
          ". Please ask a more specific question for detailed insights.") ∧
    (chat_sync "What should I watch?" none demo_store none false).message =
      "Based on our database, you might be interested in: Dunkirk. Please ask a more specific question for detailed insights." :=
  ⟨by decide,
   generation_failure_fallback "What should I watch?" none demo_store false
     (by decide),
   by decide⟩

/-! ### C8 — store errors are indistinguishable from no matches -/

/-- C8 counterexample: `cosine_similarity_search` returns `[]` both when
the store call raises (the `except Exception` branch) and when the store
is healthy but no document reaches the similarity threshold, so the caller
cannot distinguish a retrieval failure from a valid empty result. -/
theorem store_error_counterexample :
    cosine_similarity_search (Except.error "store unreachable") (fun _ => 0)
      10 none none q30 = [] ∧
    cosine_similarity_search (Except.ok demo_follow_docs) (fun _ => 0)
      10 none none q30 = [] ∧
    demo_follow_docs ≠ [] := by
  exact ⟨by decide, by decide, by decide⟩

/-- C8 amended: any store exception is caught, logged and encoded as the
empty list — the same value a genuine "no document clears the threshold"
search returns — so empty results do double duty as the encoding of store
errors and the caller cannot tell them apart from the return value. -/
theorem store_error_amended :
    (∀ (msg : String) (sim : EmbDoc → ℚ) (k : Nat) (movie_id : Option Nat)
        (section_types : Option (List String)) (min_similarity : ℚ),
      cosine_similarity_search (Except.error msg) sim k movie_id
        section_types min_similarity = []) ∧
    (∀ (docs : List EmbDoc) (sim : EmbDoc → ℚ) (k : Nat) (min_similarity : ℚ),
      (∀ d ∈ docs, sim d < min_similarity) →
      cosine_similarity_search (Except.ok docs) sim k none none
        min_similarity = []) := by
  refine ⟨fun _ _ _ _ _ _ => rfl, ?_⟩
  intro docs sim k min_similarity hlt
  unfold cosine_similarity_search
  have hfil : docs.filter (fun d => min_similarity ≤ sim d) = [] := by
    rw [List.filter_eq_nil_iff]
    intro d hd
    simp only [decide_eq_true_eq, not_le]
    exact hlt d hd
  simp [hfil, sortByDesc]

/-- Witness for C8 (amended): two present documents, both scored below the
threshold, still yield `[]`. -/
theorem store_error_amended_witness :
    (∀ d ∈ demo_follow_docs, (fun _ : EmbDoc => (0:ℚ)) d < 1) ∧
    cosine_similarity_search (Except.ok demo_follow_docs)
      (fun _ => (0:ℚ)) 10 none none 1 = [] :=
  ⟨by decide,
   store_error_amended.2 demo_follow_docs (fun _ => 0) 10 1 (by decide)⟩

/-! ### Helper lemmas for the embedding cache -/

theorem lookup_tail_of_lookup_eq_none {α β : Type} [BEq α]
    {l : List (α × β)} {k : α} (h : l.lookup k = none) :
    l.tail.lookup k = none := by
  cases l with
  | nil => simp
  | cons p rest =>
    cases p with
    | mk pk pv =>
      simp only [List.lookup] at h
      by_cases hb : (k == pk) = true
      · rw [hb] at h; simp at h
      · rw [Bool.not_eq_true] at hb
        rw [hb] at h
        simpa using h

theorem lookup_append_single {α β : Type} [BEq α] [LawfulBEq α]
    (l : List (α × β)) (k : α) (v : β) (h : l.lookup k = none) :
    (l ++ [(k, v)]).lookup k = some v := by
  induction l with
  | nil => simp [List.lookup]
  | cons p rest ih =>
    cases p with
    | mk pk pv =>
      simp only [List.lookup] at h
      rw [List.cons_append]
      simp only [List.lookup]
      by_cases hb : (k == pk) = true
      · rw [hb] at h; simp at h
      · rw [Bool.not_eq_true] at hb
        rw [hb] at h ⊢
        exact ih h

/-! ### C10 — the 500-character cache key returns stale embeddings -/

/-- C10: the cache key of `generate_embedding` depends only on the first
500 characters, so for two distinct texts sharing that prefix (the first
not yet cached), the first call computes and caches `encode t1` and the
second call returns that cached vector — `encode t1`, not an embedding of
`t2`'s full content whenever the two embeddings differ. -/
theorem embedding_cache_prefix_collision {Vec : Type} (encode : String → Vec)
    (cache : List (List Char × Vec)) (t1 t2 : String)
    (hkey : embedding_cache_key t1 = embedding_cache_key t2)
    (hmiss : cache.lookup (embedding_cache_key t1) = none) :
    (generate_embedding_cached encode
        (generate_embedding_cached encode cache t1).2 t2).1 = encode t1 ∧
    (generate_embedding_cached encode cache t1).1 = encode t1 ∧
    (encode t1 ≠ encode t2 →
      (generate_embedding_cached encode
        (generate_embedding_cached encode cache t1).2 t2).1 ≠ encode t2) := by
  have hfst : generate_embedding_cached encode cache t1 =
      (encode t1, (if cache.length > 100 then cache.tail else cache) ++
        [(embedding_cache_key t1, encode t1)]) := by
    simp only [generate_embedding_cached, hmiss]
  have hc1 : ((if cache.length > 100 then cache.tail else cache) :
      List (List Char × Vec)).lookup (embedding_cache_key t1) = none := by
    split
    · exact lookup_tail_of_lookup_eq_none hmiss
    · exact hmiss
  have hlookup2 : (((if cache.length > 100 then cache.tail else cache) ++
      [(embedding_cache_key t1, encode t1)]) :
      List (List Char × Vec)).lookup (embedding_cache_key t2) =
      some (encode t1) := by
    rw [← hkey]
    exact lookup_append_single _ _ _ hc1
  have hsnd : (generate_embedding_cached encode
      (generate_embedding_cached encode cache t1).2 t2).1 = encode t1 := by
    rw [hfst]
    simp only [generate_embedding_cached, hlookup2]
  refine ⟨hsnd, by rw [hfst], fun hne => ?_⟩
  rw [hsnd]
  exact hne

set_option maxRecDepth 10000 in
/-- Witness for C10: two 501-character texts differing only in their last
character; the second call returns the vector cached for the first text,
which differs from the second text's own embedding. -/
theorem embedding_cache_prefix_collision_witness :
    (embedding_cache_key cache_text_one = embedding_cache_key cache_text_two ∧
     ([] : List (List Char × List ℚ)).lookup
       (embedding_cache_key cache_text_one) = none) ∧
    ((generate_embedding_cached cache_demo_encode
        (generate_embedding_cached cache_demo_encode [] cache_text_one).2
        cache_text_two).1 = cache_demo_encode cache_text_one ∧
     (generate_embedding_cached cache_demo_encode [] cache_text_one).1 =
       cache_demo_encode cache_text_one ∧
     (cache_demo_encode cache_text_one ≠ cache_demo_encode cache_text_two →
       (generate_embedding_cached cache_demo_encode
         (generate_embedding_cached cache_demo_encode [] cache_text_one).2
         cache_text_two).1 ≠ cache_demo_encode cache_text_two)) :=
  ⟨⟨by decide, rfl⟩,
   embedding_cache_prefix_collision cache_demo_encode [] cache_text_one
     cache_text_two (by decide) rfl⟩

end Flickora
